import Mathlib

/-!
Verification of the linear-system resolution layer of the OpenModelica
simulation runtime (`SimulationRuntime/c/simulation/solver/linearSystem.c`).

The C code is shallowly embedded: the `LINEAR_SYSTEM_DATA` record and the
relevant parts of `DATA` become Lean structures, heap pointers become an
explicit `PtrState` (null / live / dangling) so that allocation, release and
double-free behaviour are observable, and buffer contents become `List Rat`
(the claims never do floating-point arithmetic on them, only storage and
framing).  Fatal errors raised through `throwStreamPrint` /
`assertStreamPrint` (which longjmp out of the function) are modelled by
returning the mutated-so-far state together with an error value.
-/

set_option linter.unusedVariables false

namespace LinearSystemC

/-- State of a C pointer field: `null` (never allocated / NULL), `live`
(points to an allocated block), `dangling` (points to a block that has
already been freed).  `free` on `null` is a no-op, on `live` it frees the
block, on `dangling` it is a double free (undefined behaviour in C). -/
inductive PtrState where
  | null
  | live
  | dangling
  deriving DecidableEq, Repr, Inhabited

/-- The global solver-method configuration `data->simulationInfo.lsMethod`.
`LS_LAPACK` is the dense-direct backend, `LS_LIS` the sparse-iterative one;
`LS_UNKNOWN` stands for every value hitting the `default:` branch of the
switches in the C code. -/
inductive LSMethod where
  | LS_LAPACK
  | LS_LIS
  | LS_UNKNOWN
  deriving DecidableEq, Repr, Inhabited

/-- Which function the `setAElement` function pointer of a descriptor is
bound to (`NULL`, `setAElementLAPACK`, or `setAElementLis`). -/
inductive SetAElementKind where
  | unset
  | lapack
  | lis
  deriving DecidableEq, Repr, Inhabited

/-- A fatal error raised via `assertStreamPrint` / `throwStreamPrint`. -/
inductive FatalError where
  | invalidJacobianPointer
  | unrecognizedLinearSolver
  deriving DecidableEq, Repr, Inhabited

/-- Outcome of `freeLinearSystems`: normal return, a double free (undefined
behaviour in C, surfaced as an explicit error in the model), or the fatal
`throwStreamPrint` of the `default:` switch branch. -/
inductive FreeOutcome where
  | ok
  | doubleFree
  | unrecognizedSolver
  deriving DecidableEq, Repr, Inhabited

/-- Shallow embedding of `LINEAR_SYSTEM_DATA`.  Each malloc'd pointer field
(`x`, `b`, `nominal`, `min`, `max`, `A`, `solverData`) is tracked as a
`PtrState`; for the buffers whose contents the claims inspect the pointed-to
values are carried alongside as `List Rat` (`xVals` for `x`, etc.).  The
callback fields `initialAnalyticalJacobian` (a function pointer in C) is
modelled by the integer value the model-supplied callback returns, and
`analyticalJacobianColumn` by the pointer value (0 = NULL) the assertion in
`initializeLinearSystems` inspects. -/
structure LINEAR_SYSTEM_DATA where
  size : Nat
  nnz : Nat
  method : Int
  jacobianIndex : Int
  analyticalJacobianColumn : Int
  initialAnalyticalJacobian : Int
  equationIndex : Nat
  solved : Int
  x : PtrState
  xVals : List Rat
  b : PtrState
  bVals : List Rat
  nominal : PtrState
  nominalVals : List Rat
  min : PtrState
  minVals : List Rat
  max : PtrState
  maxVals : List Rat
  A : PtrState
  AVals : List Rat
  setAElement : SetAElementKind
  solverData : PtrState
  deriving DecidableEq, Repr, Inhabited

/-- The parts of the C `DATA` record this file touches:
`data->simulationInfo.lsMethod` and
`data->simulationInfo.linearSystemData` (whose length plays the role of
`data->modelData.nLinearSystems`). -/
structure DATA where
  lsMethod : LSMethod
  linearSystemData : List LINEAR_SYSTEM_DATA
  deriving DecidableEq, Repr, Inhabited

/-- Modelled from the spec: the per-descriptor `initializeStaticLSData`
callback is model-generated code that is not part of the sources; per the
interface contract it writes only the `nominal`, `lowerBound` (`min`) and
`upperBound` (`max`) buffers from current model state.  It is modelled by
the triple of buffer contents it produces for a given descriptor. -/
def StaticInit : Type :=
  LINEAR_SYSTEM_DATA → List Rat × List Rat × List Rat

/-- Modelled from the spec: applying the model-supplied static-data
initializer to one descriptor writes only the `nominal` / `min` / `max`
buffer contents and leaves every other field alone. -/
def applyStaticInit (f : StaticInit) (ls : LINEAR_SYSTEM_DATA) :
    LINEAR_SYSTEM_DATA :=
  { ls with
    nominalVals := (f ls).1
    minVals := (f ls).2.1
    maxVals := (f ls).2.2 }

/-- The loop body of `initializeLinearSystems` for one descriptor, in the
exact order of the C code: malloc `x` and `b`; if `method == 1`, first the
`assertStreamPrint` on `analyticalJacobianColumn` (fatal when
`jacobianIndex != -1` and the column function pointer is NULL), then the
call of `initialAnalyticalJacobian` whose nonzero (failure) return downgrades
`jacobianIndex` to `-1`; malloc `nominal`, `min`, `max`; run
`initializeStaticLSData`; finally the switch on `lsMethod` that allocates
the solver-specific data or raises the fatal "unrecognized linear solver".
`malloc` makes the pointer `live`; C leaves the fresh block's contents
indeterminate, which the model renders as zeros (no claim reads them). -/
def initOneSystem (lsMethod : LSMethod) (f : StaticInit)
    (ls : LINEAR_SYSTEM_DATA) : LINEAR_SYSTEM_DATA × Option FatalError :=
  let ls := { ls with
    x := PtrState.live, xVals := List.replicate ls.size 0
    b := PtrState.live, bVals := List.replicate ls.size 0 }
  if ls.method = 1 ∧ ls.jacobianIndex ≠ -1 ∧ ls.analyticalJacobianColumn = 0
  then
    (ls, some FatalError.invalidJacobianPointer)
  else
    let ls :=
      if ls.method = 1 ∧ ls.initialAnalyticalJacobian ≠ 0 then
        { ls with jacobianIndex := -1 }
      else ls
    let ls := { ls with
      nominal := PtrState.live, nominalVals := List.replicate ls.size 0
      min := PtrState.live, minVals := List.replicate ls.size 0
      max := PtrState.live, maxVals := List.replicate ls.size 0 }
    let ls := applyStaticInit f ls
    match lsMethod with
    | LSMethod.LS_LAPACK =>
        ({ ls with
           A := PtrState.live
           AVals := List.replicate (ls.size * ls.size) 0
           setAElement := SetAElementKind.lapack
           solverData := PtrState.live }, none)
    | LSMethod.LS_LIS =>
        ({ ls with
           setAElement := SetAElementKind.lis
           solverData := PtrState.live }, none)
    | LSMethod.LS_UNKNOWN =>
        (ls, some FatalError.unrecognizedLinearSolver)

/-- The `for` loop of `initializeLinearSystems`.  A fatal error longjmps out
of the loop: the descriptor being processed keeps its mutated-so-far state
and the remaining descriptors are untouched. -/
def initLoop (lsMethod : LSMethod) (f : StaticInit) :
    List LINEAR_SYSTEM_DATA → List LINEAR_SYSTEM_DATA × Option FatalError
  | [] => ([], none)
  | ls :: rest =>
    match initOneSystem lsMethod f ls with
    | (ls', some e) => (ls' :: rest, some e)
    | (ls', none) =>
      let r := initLoop lsMethod f rest
      (ls' :: r.1, r.2)

/-- `initializeLinearSystems(DATA *data)`: allocates the per-system buffers
and solver data for every linear system.  The second component is `none` on
normal return (C returns 0) and `some e` when a fatal error was raised; the
first component is the state of `data` at that point. -/
def initializeLinearSystems (f : StaticInit) (d : DATA) :
    DATA × Option FatalError :=
  let r := initLoop d.lsMethod f d.linearSystemData
  ({ d with linearSystemData := r.1 }, r.2)

/-- `updateStaticDataOfLinearSystems(DATA *data)`: re-runs only the
model-supplied `initializeStaticLSData` callback on every descriptor. -/
def updateStaticDataOfLinearSystems (f : StaticInit) (d : DATA) : DATA :=
  { d with linearSystemData := d.linearSystemData.map (applyStaticInit f) }

/-- C `free` on a tracked pointer: `free(NULL)` is a no-op, freeing a live
block succeeds and leaves the pointer dangling (the C code never resets the
struct fields to NULL), and freeing a dangling pointer is a double free,
returned as `none`. -/
def freePtr : PtrState → Option PtrState
  | PtrState.null => some PtrState.null
  | PtrState.live => some PtrState.dangling
  | PtrState.dangling => none

/-- The loop body of `freeLinearSystems` for one descriptor, in C order:
free `x`, `b`, `nominal`, `min`, `max`; then the switch on `lsMethod`
(LAPACK: `freeLapackData` — backend-internal releases, modelled from the
spec as not touching the tracked fields since the backend sources are
external — then free `A`; LIS: `freeLisData`, likewise; default: fatal
"unrecognized linear solver", skipping the rest); finally free the
`solverData` handle itself. -/
def freeOneSystem (lsMethod : LSMethod) (ls : LINEAR_SYSTEM_DATA) :
    LINEAR_SYSTEM_DATA × FreeOutcome :=
  match freePtr ls.x with
  | none => (ls, FreeOutcome.doubleFree)
  | some px =>
    let ls := { ls with x := px }
    match freePtr ls.b with
    | none => (ls, FreeOutcome.doubleFree)
    | some pb =>
      let ls := { ls with b := pb }
      match freePtr ls.nominal with
      | none => (ls, FreeOutcome.doubleFree)
      | some pn =>
        let ls := { ls with nominal := pn }
        match freePtr ls.min with
        | none => (ls, FreeOutcome.doubleFree)
        | some pmin =>
          let ls := { ls with min := pmin }
          match freePtr ls.max with
          | none => (ls, FreeOutcome.doubleFree)
          | some pmax =>
            let ls := { ls with max := pmax }
            match lsMethod with
            | LSMethod.LS_LAPACK =>
              match freePtr ls.A with
              | none => (ls, FreeOutcome.doubleFree)
              | some pA =>
                let ls := { ls with A := pA }
                match freePtr ls.solverData with
                | none => (ls, FreeOutcome.doubleFree)
                | some pS => ({ ls with solverData := pS }, FreeOutcome.ok)
            | LSMethod.LS_LIS =>
              match freePtr ls.solverData with
              | none => (ls, FreeOutcome.doubleFree)
              | some pS => ({ ls with solverData := pS }, FreeOutcome.ok)
            | LSMethod.LS_UNKNOWN =>
              (ls, FreeOutcome.unrecognizedSolver)

/-- The `for` loop of `freeLinearSystems`; a fatal error or a double free
stops execution with the state reached so far. -/
def freeLoop (lsMethod : LSMethod) :
    List LINEAR_SYSTEM_DATA → List LINEAR_SYSTEM_DATA × FreeOutcome
  | [] => ([], FreeOutcome.ok)
  | ls :: rest =>
    match freeOneSystem lsMethod ls with
    | (ls', FreeOutcome.ok) =>
      let r := freeLoop lsMethod rest
      (ls' :: r.1, r.2)
    | (ls', out) => (ls' :: rest, out)

/-- `freeLinearSystems(DATA *data)`: frees the buffers and solver data of
every linear system. -/
def freeLinearSystems (d : DATA) : DATA × FreeOutcome :=
  let r := freeLoop d.lsMethod d.linearSystemData
  ({ d with linearSystemData := r.1 }, r.2)

/-- In-place update of the `i`-th element of a list (the C write
`linsys[sysNumber].solved = success`); out-of-range indices leave the list
unchanged (in C they would be out-of-bounds accesses). -/
def updateNth (f : LINEAR_SYSTEM_DATA → LINEAR_SYSTEM_DATA) :
    List LINEAR_SYSTEM_DATA → Nat → List LINEAR_SYSTEM_DATA
  | [], _ => []
  | ls :: rest, 0 => f ls :: rest
  | ls :: rest, Nat.succ n => ls :: updateNth f rest n

/-- `solve_linear_system(DATA *data, int sysNumber)`: dispatches on the
global `lsMethod` to the backend solver (`solveLapack` / `solveLis`, external
strategies modelled by the integer success value they return for a given
state and system number) and stores the result in
`linsys[sysNumber].solved`.  The `default:` branch raises the fatal
"unrecognized linear solver" before the store. -/
def solve_linear_system (solveLapack solveLis : DATA → Nat → Int) (d : DATA)
    (sysNumber : Nat) : DATA × Option FatalError :=
  match d.lsMethod with
  | LSMethod.LS_LAPACK =>
    let l := updateNth (fun ls => { ls with solved := solveLapack d sysNumber })
      d.linearSystemData sysNumber
    ({ d with linearSystemData := l }, none)
  | LSMethod.LS_LIS =>
    let l := updateNth (fun ls => { ls with solved := solveLis d sysNumber })
      d.linearSystemData sysNumber
    ({ d with linearSystemData := l }, none)
  | LSMethod.LS_UNKNOWN =>
    (d, some FatalError.unrecognizedLinearSolver)

/-- One diagnostic message emitted by `check_linear_solutions` through
`warningStreamPrintWithEquationIndexes`: it carries the equation id
(`indexes[1]`) and the simulation time it formats. -/
structure LSMessage where
  equationId : Int
  time : Rat
  deriving DecidableEq, Repr, Inhabited

/-- `linsys->equationIndex` in `check_linear_solutions`: the array base
pointer is dereferenced, i.e. the FIRST descriptor's `equationIndex`, not
the current loop element's.  The empty case is never reached by the loop. -/
def headEquationIndex : List LINEAR_SYSTEM_DATA → Nat
  | [] => 0
  | ls :: _ => ls.equationIndex

/-- The loop of `check_linear_solutions`: `retVal` is set to 1 for every
descriptor with `solved == 0`, and when printing is enabled a message with
the (loop-invariant, see `headEquationIndex`) equation id and current time
is emitted for each such descriptor. -/
def checkLoop (emit : Bool) (eqId : Int) (time : Rat) :
    List LINEAR_SYSTEM_DATA → Int × List LSMessage
  | [] => (0, [])
  | ls :: rest =>
    let r := checkLoop emit eqId time rest
    if ls.solved = 0 then
      (1, (if emit then [{ equationId := eqId, time := time }] else []) ++ r.2)
    else r

/-- `check_linear_solutions(DATA *data, int printFailingSystems)`: returns 1
iff some linear system failed to solve, else 0, plus the list of diagnostic
messages.  `activeWarningLS` models `ACTIVE_WARNING_STREAM(LOG_LS)`,
`modelInfoXmlGetEquationId` the external `modelInfoXmlGetEquation(...).id`
lookup, and `time` is `data->localData[0]->timeValue`.  The source writes
only local variables and the message stream, so no descriptor state is
returned (none is mutated). -/
def check_linear_solutions (d : DATA) (printFailingSystems : Bool)
    (activeWarningLS : Bool) (modelInfoXmlGetEquationId : Nat → Int)
    (time : Rat) : Int × List LSMessage :=
  checkLoop (printFailingSystems && activeWarningLS)
    (modelInfoXmlGetEquationId (headEquationIndex d.linearSystemData)) time
    d.linearSystemData

/-- `setAElementLAPACK(int row, int col, double value, int nth, void *data)`:
writes `value` at offset `row + col * linsys->size` of the flat dense
coefficient buffer `linsys->A` (column-major). -/
def setAElementLAPACK (row col : Nat) (value : Rat) (nth : Nat)
    (linsys : LINEAR_SYSTEM_DATA) : LINEAR_SYSTEM_DATA :=
  { linsys with
    AVals := linsys.AVals.set (row + col * linsys.size) value }

/-- The effect of the store `linsys[sysNumber].solved = success` on `DATA`. -/
def setSolvedTo (d : DATA) (i : Nat) (v : Int) : DATA :=
  let l := updateNth (fun ls => { ls with solved := v }) d.linearSystemData i
  { d with linearSystemData := l }

/-- A baseline descriptor for the concrete test inputs below: unit size,
no analytical Jacobian, nothing allocated, last solve successful. -/
def ls0 : LINEAR_SYSTEM_DATA where
  size := 1
  nnz := 0
  method := 0
  jacobianIndex := -1
  analyticalJacobianColumn := 1
  initialAnalyticalJacobian := 0
  equationIndex := 0
  solved := 1
  x := PtrState.null
  xVals := []
  b := PtrState.null
  bVals := []
  nominal := PtrState.null
  nominalVals := []
  min := PtrState.null
  minVals := []
  max := PtrState.null
  maxVals := []
  A := PtrState.null
  AVals := []
  setAElement := SetAElementKind.unset
  solverData := PtrState.null

/-- A static-data initializer that writes empty buffers. -/
def staticInitNoop : StaticInit := fun _ => ([], [], [])

/-- A solved descriptor whose `equationIndex` is 5. -/
def lsSolvedEq5 : LINEAR_SYSTEM_DATA :=
  { ls0 with solved := 1, equationIndex := 5 }

/-- An unsolved descriptor whose `equationIndex` is 7. -/
def lsUnsolvedEq7 : LINEAR_SYSTEM_DATA :=
  { ls0 with solved := 0, equationIndex := 7 }

/-- Two systems: the first solved (equation 5), the second unsolved
(equation 7). -/
def dCheckBug : DATA where
  lsMethod := LSMethod.LS_LAPACK
  linearSystemData := [lsSolvedEq5, lsUnsolvedEq7]

/-- A single-system model with the dense-direct solver configured. -/
def dSolve : DATA where
  lsMethod := LSMethod.LS_LAPACK
  linearSystemData := [ls0]

/-- A size-2 descriptor with an allocated dense coefficient buffer. -/
def lsDense2 : LINEAR_SYSTEM_DATA :=
  { ls0 with size := 2, A := PtrState.live, AVals := [0, 0, 0, 0] }

/-- A descriptor with every buffer and handle allocated, as
`initializeLinearSystems` leaves it on the dense path. -/
def lsAllLive : LINEAR_SYSTEM_DATA :=
  { ls0 with
    x := PtrState.live, b := PtrState.live, nominal := PtrState.live
    min := PtrState.live, max := PtrState.live, A := PtrState.live
    solverData := PtrState.live }

/-- A fully initialized single-system model, dense-direct solver. -/
def dLive : DATA where
  lsMethod := LSMethod.LS_LAPACK
  linearSystemData := [lsAllLive]

/-- A fully initialized single-system model whose solver method is
unrecognized. -/
def dLiveUnknown : DATA where
  lsMethod := LSMethod.LS_UNKNOWN
  linearSystemData := [lsAllLive]

/-- A one-system model with an unrecognized solver method and nothing
allocated yet. -/
def dUnknown1 : DATA where
  lsMethod := LSMethod.LS_UNKNOWN
  linearSystemData := [ls0]

/-- A descriptor requesting an analytical Jacobian (`method = 1`,
`jacobianIndex != -1`) whose column function pointer is NULL. -/
def lsBadJac : LINEAR_SYSTEM_DATA :=
  { ls0 with method := 1, jacobianIndex := 0, analyticalJacobianColumn := 0 }

/-- A model with a recognized solver method but an invalid analytical
Jacobian configuration. -/
def dBadJac : DATA where
  lsMethod := LSMethod.LS_LAPACK
  linearSystemData := [lsBadJac]

/-- A descriptor with a valid analytical-Jacobian configuration whose
initializer callback reports failure (nonzero return). -/
def lsJacFail : LINEAR_SYSTEM_DATA :=
  { ls0 with
    method := 1, jacobianIndex := 3, analyticalJacobianColumn := 1
    initialAnalyticalJacobian := 1 }

/-- The first descriptor of a collection (`linsys[0]`, the element the
buggy `linsys->equationIndex` dereference reads); the empty case is a
default value no claim exercises. -/
def headSys : List LINEAR_SYSTEM_DATA → LINEAR_SYSTEM_DATA
  | [] => default
  | ls :: _ => ls

/-- The state of a descriptor at the point of its `initializeLinearSystems`
loop iteration where `initializeStaticLSData(data, &linsys[i])` is invoked,
provided the Jacobian pointer assertion did not fire earlier: `x` and `b`
malloc'd, `jacobianIndex` possibly downgraded by a failing
`initialAnalyticalJacobian`, and `nominal` / `min` / `max` malloc'd.  This
is the exact argument the static-data initializer receives. -/
def preStaticState (ls : LINEAR_SYSTEM_DATA) : LINEAR_SYSTEM_DATA :=
  { ls with
    x := PtrState.live, xVals := List.replicate ls.size 0
    b := PtrState.live, bVals := List.replicate ls.size 0
    jacobianIndex :=
      if ls.method = 1 ∧ ls.initialAnalyticalJacobian ≠ 0 then -1
      else ls.jacobianIndex
    nominal := PtrState.live, nominalVals := List.replicate ls.size 0
    min := PtrState.live, minVals := List.replicate ls.size 0
    max := PtrState.live, maxVals := List.replicate ls.size 0 }

/-- Every pointer field of a descriptor is NULL: nothing was ever
allocated (the partially-initialized shape `freeLinearSystems` must
tolerate). -/
abbrev allPtrNull (ls : LINEAR_SYSTEM_DATA) : Prop :=
  ls.x = PtrState.null ∧ ls.b = PtrState.null ∧
  ls.nominal = PtrState.null ∧ ls.min = PtrState.null ∧
  ls.max = PtrState.null ∧ ls.A = PtrState.null ∧
  ls.solverData = PtrState.null

/-- A one-system model, dense-direct solver, with nothing allocated. -/
def dNull : DATA where
  lsMethod := LSMethod.LS_LAPACK
  linearSystemData := [ls0]

/- ## Helper lemmas -/

theorem forall2_map_self {R : LINEAR_SYSTEM_DATA → LINEAR_SYSTEM_DATA → Prop}
    (g : LINEAR_SYSTEM_DATA → LINEAR_SYSTEM_DATA)
    (hg : ∀ ls, R ls (g ls)) : ∀ l : List LINEAR_SYSTEM_DATA,
    List.Forall₂ R l (l.map g)
  | [] => List.Forall₂.nil
  | ls :: rest => List.Forall₂.cons (hg ls) (forall2_map_self g hg rest)

theorem checkLoop_fst_ne_zero (emit : Bool) (eqId : Int) (time : Rat) :
    ∀ l : List LINEAR_SYSTEM_DATA,
      (checkLoop emit eqId time l).1 ≠ 0 ↔ ∃ ls ∈ l, ls.solved = 0
  | [] => by simp [checkLoop]
  | ls :: rest => by
    by_cases h : ls.solved = 0
    · simp [checkLoop, h]
    · simp only [checkLoop, h, if_false]
      simpa [h] using checkLoop_fst_ne_zero emit eqId time rest

theorem checkLoop_fst_irrelevant (e1 e2 : Bool) (q1 q2 : Int) (t1 t2 : Rat) :
    ∀ l : List LINEAR_SYSTEM_DATA,
      (checkLoop e1 q1 t1 l).1 = (checkLoop e2 q2 t2 l).1
  | [] => rfl
  | ls :: rest => by
    by_cases h : ls.solved = 0 <;>
      simp [checkLoop, h, checkLoop_fst_irrelevant e1 e2 q1 q2 t1 t2 rest]

/- ## Claims -/

/-- C9: for a dense-direct descriptor and indices `row, col < size`,
`setAElementLAPACK row col value` writes `value` into the flat coefficient
buffer at the column-major offset `row + col * size`; a read at that offset
then yields `value`, every other offset reads unchanged, and the buffer
length and the descriptor's `size` are untouched. -/
theorem setAElementLAPACK_writes_column_major (ls : LINEAR_SYSTEM_DATA)
    (row col : Nat) (value : Rat) (nth : Nat)
    (hrow : row < ls.size) (hcol : col < ls.size)
    (hlen : ls.AVals.length = ls.size * ls.size) :
    (setAElementLAPACK row col value nth ls).AVals.getD
        (row + col * ls.size) 0 = value ∧
    (∀ j, j ≠ row + col * ls.size →
      (setAElementLAPACK row col value nth ls).AVals.getD j 0 =
        ls.AVals.getD j 0) ∧
    (setAElementLAPACK row col value nth ls).AVals.length =
      ls.AVals.length ∧
    (setAElementLAPACK row col value nth ls).size = ls.size := by
  have hcol1 : col + 1 ≤ ls.size := hcol
  have hidx : row + col * ls.size < ls.AVals.length := by
    rw [hlen]
    calc row + col * ls.size < ls.size + col * ls.size := by omega
      _ = (col + 1) * ls.size := by ring
      _ ≤ ls.size * ls.size := Nat.mul_le_mul_right _ hcol1
  refine ⟨?_, ?_, ?_, rfl⟩
  · simp [setAElementLAPACK, List.getD_eq_getElem?_getD,
      List.getElem?_set_self, hidx]
  · intro j hj
    simp [setAElementLAPACK, List.getD_eq_getElem?_getD,
      List.getElem?_set_ne (Ne.symm hj)]
  · simp [setAElementLAPACK]

/-- Witness for C9 at `size = 2`, writing 5 at `(row, col) = (1, 1)`,
offset `1 + 1*2 = 3`; offset 0 is untouched. -/
theorem setAElementLAPACK_writes_column_major_witness :
    (setAElementLAPACK 1 1 5 0 lsDense2).AVals.getD
        (1 + 1 * lsDense2.size) 0 = 5 ∧
    (setAElementLAPACK 1 1 5 0 lsDense2).AVals.getD 0 0 =
      lsDense2.AVals.getD 0 0 := by
  have h := setAElementLAPACK_writes_column_major lsDense2 1 1 5 0
    (by decide) (by decide) (by decide)
  exact ⟨h.1, h.2.1 0 (by decide)⟩

/-- C8: `updateStaticDataOfLinearSystems` applies only the model-supplied
static-data initializer to every descriptor: the solver method and the
descriptor count are preserved, and every field other than the
`nominal` / `min` / `max` buffer contents — in particular the coefficient
storage (`A`, `AVals`, `solverData`), `x`, `b` and `solved` — is unchanged,
for every collection of descriptors (hence for any number of calls). -/
theorem updateStaticDataOfLinearSystems_frame (f : StaticInit) (d : DATA) :
    (updateStaticDataOfLinearSystems f d).lsMethod = d.lsMethod ∧
    List.Forall₂ (fun ls ls' =>
        ls'.size = ls.size ∧ ls'.nnz = ls.nnz ∧ ls'.method = ls.method ∧
        ls'.jacobianIndex = ls.jacobianIndex ∧
        ls'.analyticalJacobianColumn = ls.analyticalJacobianColumn ∧
        ls'.initialAnalyticalJacobian = ls.initialAnalyticalJacobian ∧
        ls'.equationIndex = ls.equationIndex ∧ ls'.solved = ls.solved ∧
        ls'.x = ls.x ∧ ls'.xVals = ls.xVals ∧ ls'.b = ls.b ∧
        ls'.bVals = ls.bVals ∧ ls'.nominal = ls.nominal ∧
        ls'.min = ls.min ∧ ls'.max = ls.max ∧ ls'.A = ls.A ∧
        ls'.AVals = ls.AVals ∧ ls'.setAElement = ls.setAElement ∧
        ls'.solverData = ls.solverData)
      d.linearSystemData
      (updateStaticDataOfLinearSystems f d).linearSystemData := by
  refine ⟨rfl, ?_⟩
  exact forall2_map_self _ (fun ls => by simp [applyStaticInit]) _

/-- C6: `check_linear_solutions` returns a nonzero result iff some
descriptor has `solved == 0`, and its result does not depend on the
verbosity flags (the source mutates no descriptor: it writes only local
variables and the diagnostic stream, which the embedding returns
separately). -/
theorem check_linear_solutions_retVal_iff_unsolved (d : DATA)
    (printFailingSystems activeWarningLS : Bool) (g : Nat → Int) (t : Rat) :
    ((check_linear_solutions d printFailingSystems activeWarningLS g t).1 ≠ 0
      ↔ ∃ ls ∈ d.linearSystemData, ls.solved = 0) ∧
    (check_linear_solutions d printFailingSystems activeWarningLS g t).1 =
      (check_linear_solutions d false false g t).1 := by
  constructor
  · exact checkLoop_fst_ne_zero _ _ _ _
  · exact checkLoop_fst_irrelevant _ _ _ _ _ _ _

/-- C3 (code bug): with verbose reporting and diagnostic logging enabled,
`check_linear_solutions` emits one message per unsolved descriptor, but
because the source reads `linsys->equationIndex` (the FIRST descriptor's
field) instead of `linsys[i].equationIndex`, the message for the unsolved
system 1 names the equation of system 0: here the only unsolved descriptor
has `equationIndex = 7`, yet the emitted message carries equation id 5. -/
theorem check_linear_solutions_prints_head_equation_index :
    (check_linear_solutions dCheckBug true true (fun n => (n : Int)) 1).1
      = 1 ∧
    (check_linear_solutions dCheckBug true true (fun n => (n : Int)) 1).2
      = [{ equationId := 5, time := 1 }] ∧
    lsUnsolvedEq7.solved = 0 ∧ lsUnsolvedEq7.equationIndex = 7 ∧
    lsSolvedEq5.solved ≠ 0 ∧ (5 : Int) ≠ 7 := by
  refine ⟨by decide, by decide, by decide, by decide, by decide, by decide⟩

/-- C5: for every recognized solver method and valid system index,
`solve_linear_system` stores the backend solver's integer result into
`linsys[sysNumber].solved` and returns without any fatal error — a numeric
solve failure is data (`solved = 0`), never a thrown error on this path. -/
theorem solve_linear_system_stores_result_no_fatal
    (solveLapack solveLis : DATA → Nat → Int) (d : DATA) (sysNumber : Nat)
    (hm : d.lsMethod ≠ LSMethod.LS_UNKNOWN)
    (hn : sysNumber < d.linearSystemData.length) :
    (solve_linear_system solveLapack solveLis d sysNumber).2 = none ∧
    (solve_linear_system solveLapack solveLis d sysNumber).1 =
      setSolvedTo d sysNumber
        (if d.lsMethod = LSMethod.LS_LAPACK then solveLapack d sysNumber
         else solveLis d sysNumber) := by
  cases hd : d.lsMethod with
  | LS_LAPACK => simp [solve_linear_system, setSolvedTo, hd]
  | LS_LIS => simp [solve_linear_system, setSolvedTo, hd]
  | LS_UNKNOWN => exact absurd hd hm

/-- Witness for C5: the dense path on a one-system model stores the
backend result 0 (failure) as data with no fatal error. -/
theorem solve_linear_system_stores_result_no_fatal_witness :
    (solve_linear_system (fun _ _ => 0) (fun _ _ => 1) dSolve 0).2 = none ∧
    (solve_linear_system (fun _ _ => 0) (fun _ _ => 1) dSolve 0).1 =
      setSolvedTo dSolve 0
        (if dSolve.lsMethod = LSMethod.LS_LAPACK then 0 else 1) := by
  have h := solve_linear_system_stores_result_no_fatal
    (fun _ _ => 0) (fun _ _ => 1) dSolve 0 (by decide) (by decide)
  simpa using h

/-- C1 counterexample: on a one-system model with an unrecognized solver
method, `initializeLinearSystems` does raise the fatal
"unrecognized linear solver", but only AFTER the first descriptor's
`x` (unknowns), `b` (rhs), `nominal`, `min` and `max` buffers have been
allocated — the buffers are not untouched as claimed. -/
theorem initializeLinearSystems_unknown_touches_buffers_cex :
    (initializeLinearSystems staticInitNoop dUnknown1).2 =
      some FatalError.unrecognizedLinearSolver ∧
    (headSys (initializeLinearSystems staticInitNoop
      dUnknown1).1.linearSystemData).x = PtrState.live ∧
    (headSys (initializeLinearSystems staticInitNoop
      dUnknown1).1.linearSystemData).b = PtrState.live ∧
    (headSys (initializeLinearSystems staticInitNoop
      dUnknown1).1.linearSystemData).nominal = PtrState.live ∧
    (headSys (initializeLinearSystems staticInitNoop
      dUnknown1).1.linearSystemData).min = PtrState.live ∧
    (headSys (initializeLinearSystems staticInitNoop
      dUnknown1).1.linearSystemData).max = PtrState.live := by
  decide

/-- C1 (amended): with an unrecognized solver method and at least one
linear system, where the first descriptor's analytical-Jacobian
configuration does not trip the pointer assertion (`jacobianIndex = -1` or
a non-NULL `analyticalJacobianColumn`), `initializeLinearSystems`
terminates fatally with "unrecognized linear solver" only after allocating
the first descriptor's `x`, `b`, `nominal`, `min` and `max` buffers AND
running its static-data initializer — the three static buffers hold
exactly the contents the initializer produced on the pre-call state
`preStaticState ls`; the solver-specific storage (`A`, `solverData`) of
the first descriptor and all later descriptors are untouched. -/
theorem initializeLinearSystems_unknown_allocates_first (f : StaticInit)
    (d : DATA) (ls : LINEAR_SYSTEM_DATA) (rest : List LINEAR_SYSTEM_DATA)
    (hm : d.lsMethod = LSMethod.LS_UNKNOWN)
    (hl : d.linearSystemData = ls :: rest)
    (hja : ls.jacobianIndex = -1 ∨ ls.analyticalJacobianColumn ≠ 0) :
    (initializeLinearSystems f d).2 =
      some FatalError.unrecognizedLinearSolver ∧
    (headSys (initializeLinearSystems f d).1.linearSystemData).x =
      PtrState.live ∧
    (headSys (initializeLinearSystems f d).1.linearSystemData).b =
      PtrState.live ∧
    (headSys (initializeLinearSystems f d).1.linearSystemData).nominal =
      PtrState.live ∧
    (headSys (initializeLinearSystems f d).1.linearSystemData).min =
      PtrState.live ∧
    (headSys (initializeLinearSystems f d).1.linearSystemData).max =
      PtrState.live ∧
    (headSys (initializeLinearSystems f d).1.linearSystemData).nominalVals
      = (f (preStaticState ls)).1 ∧
    (headSys (initializeLinearSystems f d).1.linearSystemData).minVals =
      (f (preStaticState ls)).2.1 ∧
    (headSys (initializeLinearSystems f d).1.linearSystemData).maxVals =
      (f (preStaticState ls)).2.2 ∧
    (headSys (initializeLinearSystems f d).1.linearSystemData).A = ls.A ∧
    (headSys (initializeLinearSystems f d).1.linearSystemData).solverData =
      ls.solverData ∧
    ((initializeLinearSystems f d).1.linearSystemData).tail = rest := by
  rcases hja with h | h <;>
    by_cases hj : ls.method = 1 ∧ ls.initialAnalyticalJacobian ≠ 0 <;>
      simp [initializeLinearSystems, hl, hm, initLoop, initOneSystem,
        applyStaticInit, preStaticState, h, hj, headSys]

/-- Witness for the amended C1 on the concrete one-system model: the
fatal stop, the allocated unknowns buffer, the static buffers as the
initializer wrote them, and the untouched storage handle. -/
theorem initializeLinearSystems_unknown_allocates_first_witness :
    (initializeLinearSystems staticInitNoop dUnknown1).2 =
      some FatalError.unrecognizedLinearSolver ∧
    (headSys (initializeLinearSystems staticInitNoop
      dUnknown1).1.linearSystemData).x = PtrState.live ∧
    (headSys (initializeLinearSystems staticInitNoop
      dUnknown1).1.linearSystemData).nominalVals =
      (staticInitNoop (preStaticState ls0)).1 ∧
    (headSys (initializeLinearSystems staticInitNoop
      dUnknown1).1.linearSystemData).solverData = ls0.solverData := by
  have h := initializeLinearSystems_unknown_allocates_first staticInitNoop
    dUnknown1 ls0 [] (by decide) (by decide) (Or.inl (by decide))
  obtain ⟨h1, h2, -, -, -, -, h7, -, -, -, h11, -⟩ := h
  exact ⟨h1, h2, h7, h11⟩

/-- C4 counterexample: a model with the RECOGNIZED dense-direct solver
method still fails fatally in `initializeLinearSystems` when a descriptor
has `method = 1`, `jacobianIndex != -1` and a NULL
`analyticalJacobianColumn` pointer — the `assertStreamPrint` on the
Jacobian function pointer is a second fatal case, so the unrecognized
solver method is not the only one. -/
theorem initializeLinearSystems_jacobian_assert_fatal_cex :
    dBadJac.lsMethod ≠ LSMethod.LS_UNKNOWN ∧
    (initializeLinearSystems staticInitNoop dBadJac).2 =
      some FatalError.invalidJacobianPointer := by
  decide

theorem initOneSystem_snd_eq_none (m : LSMethod) (f : StaticInit)
    (ls : LINEAR_SYSTEM_DATA) :
    (initOneSystem m f ls).2 = none ↔
      ¬(ls.method = 1 ∧ ls.jacobianIndex ≠ -1 ∧
        ls.analyticalJacobianColumn = 0) ∧ m ≠ LSMethod.LS_UNKNOWN := by
  by_cases h1 : ls.method = 1
  · by_cases h2 : ls.jacobianIndex = -1
    · by_cases hj : ls.initialAnalyticalJacobian = 0 <;> cases m <;>
        simp [initOneSystem, applyStaticInit, h1, h2, hj]
    · by_cases h3 : ls.analyticalJacobianColumn = 0
      · cases m <;> simp [initOneSystem, h1, h2, h3]
      · by_cases hj : ls.initialAnalyticalJacobian = 0 <;> cases m <;>
          simp [initOneSystem, applyStaticInit, h1, h2, h3, hj]
  · cases m <;> simp [initOneSystem, applyStaticInit, h1]

theorem initLoop_snd_ne_none (m : LSMethod) (f : StaticInit) :
    ∀ l : List LINEAR_SYSTEM_DATA,
      (initLoop m f l).2 ≠ none ↔
        (l ≠ [] ∧ m = LSMethod.LS_UNKNOWN) ∨
        ∃ ls ∈ l, ls.method = 1 ∧ ls.jacobianIndex ≠ -1 ∧
          ls.analyticalJacobianColumn = 0
  | [] => by simp [initLoop]
  | ls :: rest => by
    rcases he : initOneSystem m f ls with ⟨ls', e⟩
    cases e with
    | some err =>
      have h2 : (ls.method = 1 ∧ ls.jacobianIndex ≠ -1 ∧
          ls.analyticalJacobianColumn = 0) ∨ m = LSMethod.LS_UNKNOWN := by
        by_cases htrip : ls.method = 1 ∧ ls.jacobianIndex ≠ -1 ∧
            ls.analyticalJacobianColumn = 0
        · exact Or.inl htrip
        · by_cases hU : m = LSMethod.LS_UNKNOWN
          · exact Or.inr hU
          · have hnone := (initOneSystem_snd_eq_none m f ls).mpr
              ⟨htrip, hU⟩
            rw [he] at hnone
            simp at hnone
      apply iff_of_true
      · simp only [initLoop, he]
        simp
      · rcases h2 with h | h
        · exact Or.inr ⟨ls, List.mem_cons_self ls rest, h⟩
        · exact Or.inl ⟨by simp, h⟩
    | none =>
      have h2 := (initOneSystem_snd_eq_none m f ls).mp (by rw [he])
      have IH := initLoop_snd_ne_none m f rest
      simp only [initLoop, he]
      constructor
      · intro hne
        rcases IH.mp (by simpa using hne) with ⟨hne', hU⟩ | ⟨ls2, hmem, ht⟩
        · exact absurd hU h2.2
        · exact Or.inr ⟨ls2, List.mem_cons_of_mem ls hmem, ht⟩
      · intro hr
        rcases hr with ⟨hne', hU⟩ | ⟨ls2, hmem, ht⟩
        · exact absurd hU h2.2
        · rcases List.mem_cons.mp hmem with rfl | hmem'
          · exact absurd ht h2.1
          · simpa using IH.mpr (Or.inr ⟨ls2, hmem', ht⟩)

/-- C4 (amended): `initializeLinearSystems` fails fatally iff either the
global solver method is unrecognized and there is at least one linear
system, or some descriptor has the analytical-Jacobian method flag set with
`jacobianIndex != -1` and a NULL `analyticalJacobianColumn` pointer (the
`assertStreamPrint` case); for every other input it runs to completion
without a fatal stop. -/
theorem initializeLinearSystems_fatal_iff (f : StaticInit) (d : DATA) :
    (initializeLinearSystems f d).2 ≠ none ↔
      (d.linearSystemData ≠ [] ∧ d.lsMethod = LSMethod.LS_UNKNOWN) ∨
      ∃ ls ∈ d.linearSystemData, ls.method = 1 ∧ ls.jacobianIndex ≠ -1 ∧
        ls.analyticalJacobianColumn = 0 :=
  initLoop_snd_ne_none d.lsMethod f d.linearSystemData

/-- C7: in the per-descriptor body of `initializeLinearSystems`, for a
descriptor with the analytical-Jacobian method flag set (`method = 1`)
whose configuration passes the pointer assertion, a failing (nonzero)
return of the `initialAnalyticalJacobian` callback downgrades
`jacobianIndex` to the `-1` "none" sentinel and initialization continues
non-fatally; a succeeding (zero) return leaves `jacobianIndex` unchanged. -/
theorem initOneSystem_jacobian_downgrade (m : LSMethod) (f : StaticInit)
    (ls : LINEAR_SYSTEM_DATA)
    (hm : ls.method = 1)
    (hja : ls.jacobianIndex = -1 ∨ ls.analyticalJacobianColumn ≠ 0)
    (hrec : m ≠ LSMethod.LS_UNKNOWN) :
    (initOneSystem m f ls).2 = none ∧
    (ls.initialAnalyticalJacobian ≠ 0 →
      (initOneSystem m f ls).1.jacobianIndex = -1) ∧
    (ls.initialAnalyticalJacobian = 0 →
      (initOneSystem m f ls).1.jacobianIndex = ls.jacobianIndex) := by
  cases m with
  | LS_UNKNOWN => exact absurd rfl hrec
  | LS_LAPACK =>
    rcases hja with h | h <;>
      by_cases hj : ls.initialAnalyticalJacobian = 0 <;>
        simp [initOneSystem, applyStaticInit, hm, h, hj]
  | LS_LIS =>
    rcases hja with h | h <;>
      by_cases hj : ls.initialAnalyticalJacobian = 0 <;>
        simp [initOneSystem, applyStaticInit, hm, h, hj]

/-- Witness for C7: a failing initializer downgrades `jacobianIndex` from
3 to -1 with no fatal error. -/
theorem initOneSystem_jacobian_downgrade_witness :
    (initOneSystem LSMethod.LS_LAPACK staticInitNoop lsJacFail).2 = none ∧
    (initOneSystem LSMethod.LS_LAPACK staticInitNoop
      lsJacFail).1.jacobianIndex = -1 := by
  have h := initOneSystem_jacobian_downgrade LSMethod.LS_LAPACK
    staticInitNoop lsJacFail (by decide) (Or.inr (by decide)) (by decide)
  exact ⟨h.1, h.2.1 (by decide)⟩

theorem freeOneSystem_null (m : LSMethod) (ls : LINEAR_SYSTEM_DATA)
    (hm : m ≠ LSMethod.LS_UNKNOWN)
    (hx : ls.x = PtrState.null) (hb : ls.b = PtrState.null)
    (hn : ls.nominal = PtrState.null) (hmin : ls.min = PtrState.null)
    (hmax : ls.max = PtrState.null) (hA : ls.A = PtrState.null)
    (hs : ls.solverData = PtrState.null) :
    freeOneSystem m ls = (ls, FreeOutcome.ok) := by
  cases ls
  dsimp only at hx hb hn hmin hmax hA hs
  subst hx hb hn hmin hmax hA hs
  cases m with
  | LS_UNKNOWN => exact absurd rfl hm
  | LS_LAPACK => rfl
  | LS_LIS => rfl

theorem freeLoop_null (m : LSMethod) (hm : m ≠ LSMethod.LS_UNKNOWN) :
    ∀ l : List LINEAR_SYSTEM_DATA, (∀ ls ∈ l, allPtrNull ls) →
      freeLoop m l = (l, FreeOutcome.ok)
  | [], _ => rfl
  | ls :: rest, h => by
    obtain ⟨hx, hb, hn, hmin, hmax, hA, hs⟩ :=
      h ls (List.mem_cons_self ls rest)
    have h1 := freeOneSystem_null m ls hm hx hb hn hmin hmax hA hs
    have h2 := freeLoop_null m hm rest
      (fun z hz => h z (List.mem_cons_of_mem ls hz))
    simp only [freeLoop, h1, h2]

theorem freeOneSystem_x_dangling (m : LSMethod) (ls : LINEAR_SYSTEM_DATA)
    (hx : ls.x = PtrState.live) :
    ((freeOneSystem m ls).1).x = PtrState.dangling := by
  simp only [freeOneSystem, hx, freePtr]
  repeat' split
  all_goals rfl

theorem freeOneSystem_dangling_head (m : LSMethod)
    (ls : LINEAR_SYSTEM_DATA) (hx : ls.x = PtrState.dangling) :
    freeOneSystem m ls = (ls, FreeOutcome.doubleFree) := by
  simp only [freeOneSystem, hx, freePtr]

/-- C2 counterexample: on a fully initialized one-system model the first
`freeLinearSystems` succeeds, but a second invocation immediately
double-frees the first descriptor's `x` buffer (the code never resets the
freed pointers to NULL), so calling `freeAll` twice is NOT safe. -/
theorem freeLinearSystems_double_free_cex :
    (freeLinearSystems dLive).2 = FreeOutcome.ok ∧
    (freeLinearSystems (freeLinearSystems dLive).1).2 =
      FreeOutcome.doubleFree := by
  decide

/-- C2 (amended): `freeLinearSystems` is safe against partial
initialization in the per-field sense — releasing a never-allocated (NULL)
field is a no-op, so on descriptors with nothing allocated it returns
normally without touching anything — but it is NOT safe to call twice: the
freed pointers are left dangling, and a second invocation after a
successful one double-frees the first descriptor's `x` (unknowns) buffer. -/
theorem freeLinearSystems_null_noop_but_double_free :
    (∀ d : DATA, d.lsMethod ≠ LSMethod.LS_UNKNOWN →
      (∀ ls ∈ d.linearSystemData, allPtrNull ls) →
      freeLinearSystems d = (d, FreeOutcome.ok)) ∧
    (∀ (d : DATA) (ls : LINEAR_SYSTEM_DATA)
      (rest : List LINEAR_SYSTEM_DATA),
      d.lsMethod ≠ LSMethod.LS_UNKNOWN → d.linearSystemData = ls :: rest →
      ls.x = PtrState.live → (freeLinearSystems d).2 = FreeOutcome.ok →
      (freeLinearSystems (freeLinearSystems d).1).2 =
        FreeOutcome.doubleFree) := by
  constructor
  · intro d hm hnull
    have h := freeLoop_null d.lsMethod hm d.linearSystemData hnull
    simp [freeLinearSystems, h]
  · intro d ls rest hm hl hx hok
    rcases hfo : freeOneSystem d.lsMethod ls with ⟨ls', out⟩
    cases out with
    | ok =>
      have hxd : ls'.x = PtrState.dangling := by
        have h := freeOneSystem_x_dangling d.lsMethod ls hx
        rw [hfo] at h
        exact h
      have h2 := freeOneSystem_dangling_head d.lsMethod ls' hxd
      simp [freeLinearSystems, hl, freeLoop, hfo, h2]
    | doubleFree =>
      exfalso
      simp [freeLinearSystems, hl, freeLoop, hfo] at hok
    | unrecognizedSolver =>
      exfalso
      simp [freeLinearSystems, hl, freeLoop, hfo] at hok

/-- Witness for the amended C2: the no-op part on an all-NULL model and
the double-free part on a fully initialized model. -/
theorem freeLinearSystems_null_noop_but_double_free_witness :
    freeLinearSystems dNull = (dNull, FreeOutcome.ok) ∧
    (freeLinearSystems (freeLinearSystems dLive).1).2 =
      FreeOutcome.doubleFree := by
  constructor
  · exact freeLinearSystems_null_noop_but_double_free.1 dNull (by decide)
      (by intro ls h; simp [dNull] at h; subst h; decide)
  · exact freeLinearSystems_null_noop_but_double_free.2 dLive lsAllLive []
      (by decide) (by decide) (by decide) (by decide)

/-- C10: on a model whose solver method is unrecognized,
`freeLinearSystems` frees the first descriptor's five numeric buffers
(`x`, `b`, `nominal`, `min`, `max` become dangling) and then raises the
fatal "unrecognized linear solver" in the switch, before the
`free(linsys[i].solverData)` statement — so the solver-data storage handle
keeps its previous state and is never released on that path, and later
descriptors are untouched. -/
theorem freeLinearSystems_unknown_skips_handle (d : DATA)
    (ls : LINEAR_SYSTEM_DATA) (rest : List LINEAR_SYSTEM_DATA)
    (hm : d.lsMethod = LSMethod.LS_UNKNOWN)
    (hl : d.linearSystemData = ls :: rest)
    (hx : ls.x = PtrState.live) (hb : ls.b = PtrState.live)
    (hn : ls.nominal = PtrState.live) (hmin : ls.min = PtrState.live)
    (hmax : ls.max = PtrState.live) :
    (freeLinearSystems d).2 = FreeOutcome.unrecognizedSolver ∧
    (freeLinearSystems d).1.linearSystemData =
      { ls with
        x := PtrState.dangling
        b := PtrState.dangling
        nominal := PtrState.dangling
        min := PtrState.dangling
        max := PtrState.dangling } :: rest ∧
    (headSys (freeLinearSystems d).1.linearSystemData).solverData =
      ls.solverData := by
  have h1 : freeOneSystem d.lsMethod ls =
      ({ ls with
         x := PtrState.dangling
         b := PtrState.dangling
         nominal := PtrState.dangling
         min := PtrState.dangling
         max := PtrState.dangling }, FreeOutcome.unrecognizedSolver) := by
    rw [hm]
    simp only [freeOneSystem, freePtr, hx, hb, hn, hmin, hmax]
  simp [freeLinearSystems, hl, freeLoop, h1, headSys]

/-- Witness for C10 on a fully initialized one-system model with an
unrecognized solver method: the handle stays `live`. -/
theorem freeLinearSystems_unknown_skips_handle_witness :
    (freeLinearSystems dLiveUnknown).2 = FreeOutcome.unrecognizedSolver ∧
    (freeLinearSystems dLiveUnknown).1.linearSystemData =
      { lsAllLive with
        x := PtrState.dangling
        b := PtrState.dangling
        nominal := PtrState.dangling
        min := PtrState.dangling
        max := PtrState.dangling } :: [] ∧
    (headSys (freeLinearSystems dLiveUnknown).1.linearSystemData).solverData
      = lsAllLive.solverData :=
  freeLinearSystems_unknown_skips_handle dLiveUnknown lsAllLive []
    rfl rfl rfl rfl rfl rfl rfl

end LinearSystemC
